import Mathlib

/-!
Formal model of the serverless pixel-canvas workers of this repository.

The deployed workers are embedded as pure Lean functions:
* the Go pixel worker (functions/worker/pixel-worker-go/main.go):
  color validation, session/bounds validation, the fixed-window rate
  limiter, and the transactional pixel/user-stat commit;
* the JS session worker (functions/worker/session-worker/index.js):
  start/pause/resume/reset/end of the canvas session;
* the Go snapshot worker (deployed from functions/worker/snapshot-worker-go,
  the file whose package is snapshotworker): sparse tile grouping,
  per-tile upload, and manifest construction.

Document stores are modelled as functions from keys to optional records;
an update writes one key and leaves all others untouched, mirroring a
Firestore point write.  Firestore transactions are modelled by an explicit
txFails flag: when the flag is set neither write of the transaction is
applied, matching the all-or-nothing commit of RunTransaction.
-/

/-! ## Pixel worker (functions/worker/pixel-worker-go/main.go) -/

/-- rateLimitWindow constant: 60 seconds. -/
def rateLimitWindow : Nat := 60

/-- rateLimitMax constant: 20 pixels per window. -/
def rateLimitMax : Nat := 20

/-- maxCoordinate constant: 100000. -/
def maxCoordinate : Nat := 100000

/-- tileSize constant of the snapshot worker: 2048. -/
def tileSize : Nat := 2048

/-- One character of the regular expression class [0-9A-Fa-f]. -/
def isHexChar (c : Char) : Bool :=
  (('0' ≤ c) && (c ≤ '9')) || (('a' ≤ c) && (c ≤ 'f')) || (('A' ≤ c) && (c ≤ 'F'))

/-- hexColorRegex.MatchString: the color matches ^[0-9A-Fa-f]{6}$ exactly. -/
def hexColorOk (color : String) : Bool :=
  color.length == 6 && color.toList.all isHexChar

/-- The session document stored at sessions/current (fields written by the
session worker; the pixel worker reads status, canvasWidth, canvasHeight). -/
structure SessionDoc where
  status : String
  canvasWidth : Int
  canvasHeight : Int
  startedAt : String
  createdBy : String
  createdByUsername : String
  pausedAt : Option String
  resumedAt : Option String
  resetAt : Option String
  pixelsCleared : Option Nat
  deriving Repr, DecidableEq

/-- The distinct rejection reasons produced by validateBounds. -/
inductive BoundsError where
  | noActiveSession
  | sessionNotActive (status : String)
  | outOfBounds (cw ch : Int)
  | coordinateTooLarge
  deriving Repr, DecidableEq

/-- validateBounds of the Go pixel worker: load sessions/current (absent
document = lookup error), require status "active", check canvas bounds
when both dimensions are positive, then reject |x| or |y| above
maxCoordinate.  Returns none when the placement is valid. -/
def validateBounds (session : Option SessionDoc) (x y : Int) : Option BoundsError :=
  match session with
  | none => some .noActiveSession
  | some s =>
    if s.status ≠ "active" then some (.sessionNotActive s.status)
    else if 0 < s.canvasWidth ∧ 0 < s.canvasHeight ∧
        (x < 0 ∨ s.canvasWidth ≤ x ∨ y < 0 ∨ s.canvasHeight ≤ y) then
      some (.outOfBounds s.canvasWidth s.canvasHeight)
    else if maxCoordinate < x.natAbs ∨ maxCoordinate < y.natAbs then
      some .coordinateTooLarge
    else none

/-- A rate_limits document, keyed by userId_windowIndex. -/
structure RateDoc where
  count : Nat
  userId : String
  window : Nat
  expiresAt : Nat
  deriving Repr, DecidableEq

/-- checkRateLimit of the Go pixel worker, as one atomic read-modify-write
of the rate_limits store.  Result: ((allowed, count), new store). -/
def checkRateLimit (store : String × Nat → Option RateDoc) (userId : String)
    (now : Nat) : (Bool × Nat) × (String × Nat → Option RateDoc) :=
  let minute := now / rateLimitWindow
  match store (userId, minute) with
  | none =>
      ((true, 1), fun k =>
        if k = (userId, minute) then
          some ⟨1, userId, minute, now + rateLimitWindow * 2⟩
        else store k)
  | some doc =>
      if rateLimitMax ≤ doc.count then ((false, doc.count), store)
      else
        ((true, doc.count + 1), fun k =>
          if k = (userId, minute) then some { doc with count := doc.count + 1 }
          else store k)

/-- A pixels document, keyed by x_y. -/
structure PixelDoc where
  x : Int
  y : Int
  color : String
  userId : String
  username : String
  source : String
  updatedAt : String
  deriving Repr, DecidableEq

/-- A users document, keyed by userId. -/
structure UserDoc where
  id : String
  username : String
  lastPixelAt : String
  pixelCount : Nat
  createdAt : String
  deriving Repr, DecidableEq

/-- The two writes of the updatePixel transaction: overwrite the pixel
document at (x, y) with the full new payload, and upsert the user
document (increment pixelCount and set lastPixelAt when it exists,
create it with pixelCount 1 otherwise). -/
def updatePixelWrites (pixels : Int × Int → Option PixelDoc)
    (users : String → Option UserDoc) (x y : Int)
    (color userId username source now : String) :
    (Int × Int → Option PixelDoc) × (String → Option UserDoc) :=
  (fun k => if k = (x, y) then some ⟨x, y, color, userId, username, source, now⟩
            else pixels k,
   fun k =>
     if k = userId then
       match users userId with
       | some u => some { u with lastPixelAt := now, pixelCount := u.pixelCount + 1 }
       | none => some ⟨userId, username, now, 1, now⟩
     else users k)

/-- updatePixel of the Go pixel worker: run the transaction; when it fails
nothing at all is written and false is returned, otherwise both writes
commit together and true is returned. -/
def updatePixel (txFails : Bool) (pixels : Int × Int → Option PixelDoc)
    (users : String → Option UserDoc) (x y : Int)
    (color userId username source now : String) :
    Bool × (Int × Int → Option PixelDoc) × (String → Option UserDoc) :=
  if txFails then (false, pixels, users)
  else
    let w := updatePixelWrites pixels users x y color userId username source now
    (true, w.1, w.2)

/-- The Firestore collections touched by the pixel worker. -/
structure WorkerState where
  pixels : Int × Int → Option PixelDoc
  users : String → Option UserDoc
  rateLimits : String × Nat → Option RateDoc
  session : Option SessionDoc

/-- A decoded PlacePixel event payload. -/
structure PixelEvent where
  x : Int
  y : Int
  color : String
  userId : String
  username : String
  source : String

/-- The observable outcome of handling one PlacePixel event. -/
inductive PlaceOutcome where
  | invalidColor
  | rejectedBounds (e : BoundsError)
  | rateLimited (count max : Nat)
  | storeFailed
  | placed
  deriving Repr, DecidableEq

/-- The source default applied on entry: an empty source becomes "web". -/
def normalizeEvent (ev : PixelEvent) : PixelEvent :=
  if ev.source = "" then { ev with source := "web" } else ev

/-- handleCloudEvent of the Go pixel worker, after event decoding: default
the source to "web", validate the color, validate session and bounds,
consult the rate limiter, and only then run the pixel/user transaction. -/
def processPixelEvent (st : WorkerState) (ev0 : PixelEvent) (now : Nat)
    (nowStr : String) (txFails : Bool) : WorkerState × PlaceOutcome :=
  let ev := normalizeEvent ev0
  if hexColorOk ev.color then
    match validateBounds st.session ev.x ev.y with
    | some e => (st, .rejectedBounds e)
    | none =>
      let rl := checkRateLimit st.rateLimits ev.userId now
      let st1 := { st with rateLimits := rl.2 }
      if rl.1.1 then
        let r := updatePixel txFails st1.pixels st1.users ev.x ev.y ev.color
          ev.userId ev.username ev.source nowStr
        if r.1 then ({ st1 with pixels := r.2.1, users := r.2.2 }, .placed)
        else (st1, .storeFailed)
      else (st1, .rateLimited rl.1.2 rateLimitMax)
  else (st, .invalidColor)

/-- What the worker reports back to the Pub/Sub delivery layer: ack means
a nil return (the message is consumed), retryEvent means a non-nil error
return (the message is redelivered with backoff). -/
inductive DeliveryAction where
  | ack
  | retryEvent
  deriving Repr, DecidableEq

/-- The full CloudEvent entry point: an undecodable payload returns an
error (redelivery); every decoded event is processed and acknowledged,
whatever its outcome. -/
def handleCloudEvent (parsed : Option PixelEvent) (st : WorkerState) (now : Nat)
    (nowStr : String) (txFails : Bool) :
    DeliveryAction × WorkerState × Option PlaceOutcome :=
  match parsed with
  | none => (.retryEvent, st, none)
  | some ev =>
      let r := processPixelEvent st ev now nowStr txFails
      (.ack, r.1, some r.2)

/-! ## Session worker (functions/worker/session-worker/index.js) -/

/-- The JavaScript expression v || d on a numeric field: the default is
taken when the field is absent or its value is falsy (0). -/
def jsNumOr (v : Option Int) (d : Int) : Int :=
  match v with
  | none => d
  | some n => if n = 0 then d else n

/-- The metadata passed to startSession from the decoded session command. -/
structure StartMeta where
  canvasWidth : Option Int
  canvasHeight : Option Int
  userId : String
  username : String

/-- startSession: overwrite sessions/current with a fresh active record;
dimensions fall back to 100 via the JavaScript || operator. -/
def startSession (meta : StartMeta) (now : String) : SessionDoc :=
  { status := "active"
    startedAt := now
    canvasWidth := jsNumOr meta.canvasWidth 100
    canvasHeight := jsNumOr meta.canvasHeight 100
    createdBy := meta.userId
    createdByUsername := meta.username
    pausedAt := none
    resumedAt := none
    resetAt := none
    pixelsCleared := none }

/-- pauseSession: update sessions/current with status "paused" and
pausedAt; an update of a missing document throws, which the worker
catches and reports as failure with nothing written. -/
def pauseSession (current : Option SessionDoc) (now : String) :
    Option SessionDoc × Bool :=
  match current with
  | none => (none, false)
  | some s => (some { s with status := "paused", pausedAt := some now }, true)

/-- resumeSession: update sessions/current with status "active" and
resumedAt, unconditionally on the stored status; fails without a write
when no current document exists. -/
def resumeSession (current : Option SessionDoc) (now : String) :
    Option SessionDoc × Bool :=
  match current with
  | none => (none, false)
  | some s => (some { s with status := "active", resumedAt := some now }, true)

/-- The batched deletion loop of resetCanvas: repeatedly fetch up to 500
pixel documents and delete them in one batch commit, until the fetch
comes back empty.  Returns (documents deleted, batch commits made). -/
def resetLoop (pixels : List PixelDoc) : Nat × Nat :=
  if h : pixels.isEmpty then (0, 0)
  else
    let r := resetLoop (pixels.drop 500)
    ((pixels.take 500).length + r.1, r.2 + 1)
termination_by pixels.length
decreasing_by
  simp only [List.isEmpty_eq_true] at h
  have hl : 0 < pixels.length := List.length_pos.mpr h
  simp only [List.length_drop]
  omega

/-- resetCanvas: delete every pixel document in batches, then update
sessions/current with status "active", resetAt and the deletion count.
The final update throws when no current document exists; the deletions
persist regardless.  Returns (remaining pixels, session, success, count). -/
def resetCanvas (pixels : List PixelDoc) (current : Option SessionDoc)
    (now : String) : List PixelDoc × Option SessionDoc × Bool × Nat :=
  let deleted := (resetLoop pixels).1
  match current with
  | none => ([], none, false, deleted)
  | some s =>
      ([],
       some { s with
                status := "active"
                resetAt := some now
                pixelsCleared := some deleted },
       true, deleted)

/-- An archived session document: the spread of the current record with
status forced to "ended" plus the new endedAt field. -/
structure ArchivedSession where
  data : SessionDoc
  endedAt : String
  deriving Repr, DecidableEq

/-- The sessions collection as seen by endSession: the singleton current
record and the archive records keyed by the millisecond timestamp in
their document id. -/
structure SessionStore where
  current : Option SessionDoc
  archive : Nat → Option ArchivedSession

/-- endSession: when a current record exists, copy it into
sessions/archive_<now> with status "ended" and endedAt set, then delete
the current record; when none exists, do nothing.  Both paths succeed. -/
def endSession (store : SessionStore) (nowKey : Nat) (nowStr : String) :
    SessionStore × Bool :=
  match store.current with
  | none => (store, true)
  | some s =>
      ({ current := none
         archive := fun k =>
           if k = nowKey then some ⟨{ s with status := "ended" }, nowStr⟩
           else store.archive k }, true)

/-! ## Snapshot worker (functions/worker/snapshot-worker-go) -/

/-- A pixel document as read back by the snapshot worker. -/
structure SPixel where
  x : Int
  y : Int
  color : String
  deriving Repr, DecidableEq

/-- The in-canvas filter applied before grouping pixels into tiles. -/
def inCanvas (w h : Int) (p : SPixel) : Bool :=
  decide (0 ≤ p.x ∧ p.x < w ∧ 0 ≤ p.y ∧ p.y < h)

/-- The tile key p.X / tileSize, p.Y / tileSize computed with the Go
integer division (truncation toward zero). -/
def tileKeyOf (p : SPixel) : Int × Int :=
  (p.x.tdiv (tileSize : Int), p.y.tdiv (tileSize : Int))

/-- The pixels grouped under one tile key: exactly the in-canvas pixels
whose tile key matches, in enumeration order. -/
def tilePixels (pixels : List SPixel) (w h : Int) (k : Int × Int) : List SPixel :=
  (pixels.filter (inCanvas w h)).filter (fun p => decide (tileKeyOf p = k))

/-- The set of materialized tile keys: the keys of the grouping map, i.e.
the distinct tile keys of the in-canvas pixels.  Only these tiles are
generated and uploaded. -/
def tileKeys (pixels : List SPixel) (w h : Int) : List (Int × Int) :=
  ((pixels.filter (inCanvas w h)).map tileKeyOf).dedup

/-- One entry of the manifest tiles list. -/
structure TileRef where
  tx : Int
  ty : Int
  url : String
  deriving Repr, DecidableEq

/-- The snapshot manifest persisted at snapshots/<ts>/manifest.json. -/
structure Manifest where
  timestamp : Nat
  canvasWidth : Int
  canvasHeight : Int
  tileSize : Nat
  tilesX : Int
  tilesY : Int
  tiles : List TileRef
  thumbnailUrl : String
  pixelCount : Nat
  deriving Repr, DecidableEq

/-- The storage path of one tile image. -/
def tileUrl (ts : Nat) (k : Int × Int) : String :=
  "snapshots/" ++ toString ts ++ "/tile-" ++ toString k.1 ++ "-" ++
    toString k.2 ++ ".png"

/-- ceil(w / tileSize) as computed on the positive canvas dimensions. -/
def tileGridCount (w : Int) : Int := (w + (tileSize : Int) - 1) / (tileSize : Int)

/-- The snapshot run after the pixels are fetched: group in-canvas pixels
by tile key, generate and upload only the materialized tiles, silently
drop any tile whose upload fails, and build the manifest from the tiles
that uploaded.  tileUploadOk says which tile uploads succeed; thumbOk
whether the thumbnail upload succeeds (its error is discarded). -/
def snapshotRun (pixels : List SPixel) (w h : Int) (ts : Nat)
    (tileUploadOk : Int × Int → Bool) (thumbOk : Bool) : Manifest :=
  { timestamp := ts
    canvasWidth := w
    canvasHeight := h
    tileSize := tileSize
    tilesX := tileGridCount w
    tilesY := tileGridCount h
    tiles := ((tileKeys pixels w h).filter tileUploadOk).map
      (fun k => ⟨k.1, k.2, tileUrl ts k⟩)
    thumbnailUrl := if thumbOk then "snapshots/" ++ toString ts ++ "/thumbnail.png" else ""
    pixelCount := pixels.length }

/-- The tile indices referenced by a manifest. -/
def manifestTileIndices (m : Manifest) : List (Int × Int) :=
  m.tiles.map (fun t => (t.tx, t.ty))

/-- The snapshot CloudEvent entry point: a failed pixel fetch returns the
error (redelivery); otherwise the run completes, persists its manifest
and acknowledges, whatever happened to individual tile uploads. -/
def snapshotHandler (fetched : Option (List SPixel)) (w h : Int) (ts : Nat)
    (tileUploadOk : Int × Int → Bool) (thumbOk : Bool) :
    DeliveryAction × Option Manifest :=
  match fetched with
  | none => (.retryEvent, none)
  | some pixels => (.ack, some (snapshotRun pixels w h ts tileUploadOk thumbOk))

/-- A placement request, used to state last-writer-wins over a sequence
of committed transactions. -/
structure PlaceReq where
  x : Int
  y : Int
  color : String
  userId : String
  username : String
  source : String
  now : String

/-- Commit a sequence of placement transactions in order (each one the
two writes of updatePixelWrites). -/
def commitAll (pixels : Int × Int → Option PixelDoc)
    (users : String → Option UserDoc) :
    List PlaceReq → (Int × Int → Option PixelDoc) × (String → Option UserDoc)
  | [] => (pixels, users)
  | r :: rs =>
      let w := updatePixelWrites pixels users r.x r.y r.color r.userId
        r.username r.source r.now
      commitAll w.1 w.2 rs

/-! ## Sample records used by concrete witnesses and counterexamples -/

/-- An empty pixels collection. -/
def emptyPixels : Int × Int → Option PixelDoc := fun _ => none

/-- An empty users collection. -/
def emptyUsers : String → Option UserDoc := fun _ => none

/-- An empty rate_limits collection. -/
def emptyRate : String × Nat → Option RateDoc := fun _ => none

/-- An active 100 by 100 session record. -/
def activeSession100 : SessionDoc :=
  ⟨"active", 100, 100, "t0", "admin", "Admin", none, none, none, none⟩

/-- A worker state with an active 100 by 100 session and empty stores. -/
def sampleState : WorkerState :=
  ⟨emptyPixels, emptyUsers, emptyRate, some activeSession100⟩

/-- A well-formed placement event. -/
def sampleEvent : PixelEvent := ⟨5, 5, "FF0000", "U1", "Alice", "web"⟩

/-- The session record written at the end of a reset run. -/
def resetSessionDoc (s : SessionDoc) (now : String) (cleared : Nat) : SessionDoc :=
  { s with
      status := "active"
      resetAt := some now
      pixelsCleared := some cleared }

/-- A current session record whose state is Ended, as the session data
model allows. -/
def endedSessionDoc : SessionDoc :=
  ⟨"ended", 100, 100, "t0", "admin", "Admin", none, none, none, none⟩

/-! ## Helper lemmas -/

/-- Go integer division truncates toward zero; on nonnegative operands it
agrees with the floor division of the mathematical integers. -/
theorem int_tdiv_eq_ediv_of_nonneg (a : Int) (b : Nat) (h : 0 ≤ a) :
    a.tdiv (b : Int) = a / (b : Int) := by
  obtain ⟨n, rfl⟩ := Int.eq_ofNat_of_zero_le h
  rfl

/-- The deletion loop removes every document, in ceil(P / 500) batch
commits. -/
theorem resetLoop_eq (l : List PixelDoc) :
    resetLoop l = (l.length, (l.length + 499) / 500) := by
  induction l using resetLoop.induct with
  | case1 l hempty =>
      rw [resetLoop]
      simp only [hempty]
      simp only [List.isEmpty_eq_true] at hempty
      simp [hempty]
  | case2 l hempty ih =>
      rw [resetLoop]
      simp only [hempty]
      simp only [List.isEmpty_eq_true] at hempty
      have hl : 0 < l.length := List.length_pos.mpr hempty
      simp only [ih, List.length_take, List.length_drop]
      refine Prod.ext ?_ ?_ <;> simp <;> omega

/-- Normalizing the source leaves the x coordinate unchanged. -/
theorem normalizeEvent_x (ev : PixelEvent) : (normalizeEvent ev).x = ev.x := by
  unfold normalizeEvent; split <;> rfl

/-- Normalizing the source leaves the y coordinate unchanged. -/
theorem normalizeEvent_y (ev : PixelEvent) : (normalizeEvent ev).y = ev.y := by
  unfold normalizeEvent; split <;> rfl

/-- Normalizing the source leaves the color unchanged. -/
theorem normalizeEvent_color (ev : PixelEvent) :
    (normalizeEvent ev).color = ev.color := by
  unfold normalizeEvent; split <;> rfl

/-- Normalizing the source leaves the user id unchanged. -/
theorem normalizeEvent_userId (ev : PixelEvent) :
    (normalizeEvent ev).userId = ev.userId := by
  unfold normalizeEvent; split <;> rfl

/-- Normalizing the source leaves the username unchanged. -/
theorem normalizeEvent_username (ev : PixelEvent) :
    (normalizeEvent ev).username = ev.username := by
  unfold normalizeEvent; split <;> rfl

/-- The normalized source is "web" exactly when the original was empty. -/
theorem normalizeEvent_source (ev : PixelEvent) :
    (normalizeEvent ev).source = if ev.source = "" then "web" else ev.source := by
  unfold normalizeEvent; split <;> rfl

/-- Folding committed placements at one coordinate: the final pixel
document is exactly the payload of the last request. -/
theorem commitAll_getLast (x y : Int) :
    ∀ (reqs : List PlaceReq) (pixels : Int × Int → Option PixelDoc)
      (users : String → Option UserDoc) (r : PlaceReq),
      reqs.getLast? = some r → (∀ q ∈ reqs, q.x = x ∧ q.y = y) →
      (commitAll pixels users reqs).1 (x, y) =
        some ⟨x, y, r.color, r.userId, r.username, r.source, r.now⟩ := by
  intro reqs
  induction reqs with
  | nil => intro pixels users r hr _; simp at hr
  | cons q rs ih =>
      intro pixels users r hr hall
      obtain ⟨hqx, hqy⟩ := hall q (List.mem_cons_self q rs)
      cases rs with
      | nil =>
          have hqr : q = r := by simpa using hr
          subst hqr
          simp only [commitAll, updatePixelWrites]
          rw [hqx, hqy]
          simp
      | cons q2 rs2 =>
          have hr' : (q2 :: rs2).getLast? = some r := by
            rwa [List.getLast?_cons_cons] at hr
          have hall' : ∀ p ∈ q2 :: rs2, p.x = x ∧ p.y = y := by
            intro p hp; exact hall p (List.mem_cons_of_mem q hp)
          simp only [commitAll]
          exact ih _ _ r hr' hall'

/-- C3: tryConsume of the rate limiter.  With windowIndex = floor(now / 60):
when no counter exists for (ownerId, windowIndex) it creates one with
count 1 and expiresAt = now + 120 seconds and returns Allowed(1); when the
stored count is at least 20 it returns Denied(count, 20) and writes
nothing at all — in particular the pixel worker then leaves the pixel and
user collections (and the counter store) untouched; otherwise it
increments the counter and returns Allowed(count + 1). -/
theorem c3_tryConsume (store : String × Nat → Option RateDoc)
    (userId : String) (now : Nat) :
    (store (userId, now / 60) = none →
      (checkRateLimit store userId now).1 = (true, 1) ∧
      (checkRateLimit store userId now).2 (userId, now / 60) =
        some ⟨1, userId, now / 60, now + 120⟩ ∧
      ∀ k, k ≠ (userId, now / 60) →
        (checkRateLimit store userId now).2 k = store k) ∧
    (∀ c, store (userId, now / 60) = some c → 20 ≤ c.count →
      (checkRateLimit store userId now).1 = (false, c.count) ∧
      (checkRateLimit store userId now).2 = store ∧
      (∀ (st : WorkerState) (ev : PixelEvent) (nowStr : String) (txFails : Bool),
        st.rateLimits = store → ev.userId = userId →
        (processPixelEvent st ev now nowStr txFails).1.pixels = st.pixels ∧
        (processPixelEvent st ev now nowStr txFails).1.users = st.users ∧
        (processPixelEvent st ev now nowStr txFails).1.rateLimits = store)) ∧
    (∀ c, store (userId, now / 60) = some c → c.count < 20 →
      (checkRateLimit store userId now).1 = (true, c.count + 1) ∧
      (checkRateLimit store userId now).2 (userId, now / 60) =
        some { c with count := c.count + 1 } ∧
      ∀ k, k ≠ (userId, now / 60) →
        (checkRateLimit store userId now).2 k = store k) := by
  have hw : rateLimitWindow = 60 := rfl
  have hm : rateLimitMax = 20 := rfl
  refine ⟨?_, ?_, ?_⟩
  · intro h
    refine ⟨?_, ?_, ?_⟩
    · simp [checkRateLimit, hw, h]
    · simp [checkRateLimit, hw, h]
    · intro k hk
      simp [checkRateLimit, hw, h, hk]
  · intro c hc hcount
    have hdeny : checkRateLimit store userId now = ((false, c.count), store) := by
      simp only [checkRateLimit, hw, hm, hc]
      rw [if_pos hcount]
    refine ⟨by rw [hdeny], by rw [hdeny], ?_⟩
    intro st ev nowStr txFails hst hid
    have hdeny' : checkRateLimit store (normalizeEvent ev).userId now =
        ((false, c.count), store) := by
      rw [normalizeEvent_userId, hid, hdeny]
    simp only [processPixelEvent]
    cases hcol : hexColorOk (normalizeEvent ev).color
    · simp [hcol, hst]
    · cases hvb : validateBounds st.session (normalizeEvent ev).x (normalizeEvent ev).y
      · simp [hcol, hvb, hdeny', hst]
      · simp [hcol, hvb, hst]
  · intro c hc hcount
    have hle : ¬ rateLimitMax ≤ c.count := by rw [hm]; omega
    simp only [checkRateLimit, hw, hc]
    rw [if_neg hle]
    refine ⟨rfl, by simp, ?_⟩
    intro k hk
    simp [hk]

/-- C3 witness: a first placement by U1 at second 30 creates the counter
for window 0 with count 1 and expiry 150, and is allowed. -/
theorem c3_tryConsume_witness :
    (checkRateLimit emptyRate "U1" 30).1 = (true, 1) ∧
    (checkRateLimit emptyRate "U1" 30).2 ("U1", 0) = some ⟨1, "U1", 0, 150⟩ := by
  have h := (c3_tryConsume emptyRate "U1" 30).1 rfl
  exact ⟨h.1, h.2.1⟩

/-- C5: the successful transaction overwrites the Pixel document at (x, y)
with the full new payload (never a merge), upserts the UserStat (created
with pixelCount 1 when absent, else incremented with lastPixelAt set),
touches no other key; a failed transaction writes neither document; and
over any sequence of committed placements at one coordinate the final
stored Pixel equals the last committed payload. -/
theorem c5_atomic_last_writer (pixels : Int × Int → Option PixelDoc)
    (users : String → Option UserDoc) (x y : Int)
    (color uid uname src now : String) :
    (updatePixel true pixels users x y color uid uname src now =
      (false, pixels, users)) ∧
    ((updatePixel false pixels users x y color uid uname src now).2.1 (x, y) =
      some ⟨x, y, color, uid, uname, src, now⟩) ∧
    (∀ k, k ≠ (x, y) →
      (updatePixel false pixels users x y color uid uname src now).2.1 k =
        pixels k) ∧
    (users uid = none →
      (updatePixel false pixels users x y color uid uname src now).2.2 uid =
        some ⟨uid, uname, now, 1, now⟩) ∧
    (∀ u, users uid = some u →
      (updatePixel false pixels users x y color uid uname src now).2.2 uid =
        some { u with lastPixelAt := now, pixelCount := u.pixelCount + 1 }) ∧
    (∀ k, k ≠ uid →
      (updatePixel false pixels users x y color uid uname src now).2.2 k =
        users k) ∧
    (∀ (reqs : List PlaceReq) (r : PlaceReq),
      reqs.getLast? = some r → (∀ q ∈ reqs, q.x = x ∧ q.y = y) →
      (commitAll pixels users reqs).1 (x, y) =
        some ⟨x, y, r.color, r.userId, r.username, r.source, r.now⟩) := by
  refine ⟨rfl, ?_, ?_, ?_, ?_, ?_, ?_⟩
  · simp [updatePixel, updatePixelWrites]
  · intro k hk
    simp [updatePixel, updatePixelWrites, hk]
  · intro h
    simp [updatePixel, updatePixelWrites, h]
  · intro u hu
    simp [updatePixel, updatePixelWrites, hu]
  · intro k hk
    simp [updatePixel, updatePixelWrites, hk]
  · intro reqs r hr hall
    exact commitAll_getLast x y reqs pixels users r hr hall

/-- C5 witness: two committed placements at (5, 5); the stored pixel is
the second payload, and a first placement creates the user stat with
pixelCount 1. -/
theorem c5_atomic_last_writer_witness :
    (commitAll emptyPixels emptyUsers
      [⟨5, 5, "FF0000", "U1", "Alice", "web", "t1"⟩,
       ⟨5, 5, "00FF00", "U2", "Bob", "discord", "t2"⟩]).1 (5, 5) =
      some ⟨5, 5, "00FF00", "U2", "Bob", "discord", "t2"⟩ ∧
    (updatePixel false emptyPixels emptyUsers 5 5 "FF0000" "U1" "Alice" "web" "t1").2.2 "U1" =
      some ⟨"U1", "Alice", "t1", 1, "t1"⟩ := by
  have h := c5_atomic_last_writer emptyPixels emptyUsers 5 5 "FF0000" "U1" "Alice" "web" "t1"
  refine ⟨?_, h.2.2.2.1 rfl⟩
  refine h.2.2.2.2.2.2
    [⟨5, 5, "FF0000", "U1", "Alice", "web", "t1"⟩,
     ⟨5, 5, "00FF00", "U2", "Bob", "discord", "t2"⟩]
    ⟨5, 5, "00FF00", "U2", "Bob", "discord", "t2"⟩ (by rfl) ?_
  intro q hq
  simp only [List.mem_cons, List.mem_singleton] at hq
  rcases hq with h1 | h2 | h3
  · rw [h1]; exact ⟨rfl, rfl⟩
  · rw [h2]; exact ⟨rfl, rfl⟩
  · cases h3

/-- C6: resetCanvas on a canvas with P pixels deletes them in
ceil(P / 500) batch commits until none remain, then sets the current
session state to "active", resetAt to now and pixelsCleared to exactly P;
running it again on the remaining pixels of an interrupted run deletes
exactly those and finishes the same way, so the operation is
re-entrant. -/
theorem c6_reset (pixels : List PixelDoc) (s : SessionDoc) (now : String) :
    (resetCanvas pixels (some s) now).1 = [] ∧
    (resetCanvas pixels (some s) now).2.1 =
      some (resetSessionDoc s now pixels.length) ∧
    (resetCanvas pixels (some s) now).2.2.1 = true ∧
    (resetCanvas pixels (some s) now).2.2.2 = pixels.length ∧
    (resetLoop pixels).2 = (pixels.length + 499) / 500 ∧
    (∀ k, (resetCanvas (pixels.drop (500 * k)) (some s) now).1 = [] ∧
      (resetCanvas (pixels.drop (500 * k)) (some s) now).2.2.2 =
        pixels.length - 500 * k ∧
      (resetCanvas (pixels.drop (500 * k)) (some s) now).2.1 =
        some (resetSessionDoc s now (pixels.length - 500 * k))) := by
  refine ⟨rfl, ?_, rfl, ?_, ?_, ?_⟩
  · simp [resetCanvas, resetLoop_eq, resetSessionDoc]
  · simp [resetCanvas, resetLoop_eq]
  · rw [resetLoop_eq]
  · intro k
    refine ⟨rfl, ?_, ?_⟩
    · simp [resetCanvas, resetLoop_eq]
    · simp [resetCanvas, resetLoop_eq, resetSessionDoc]

/-- C8 counterexample: pauseSession applied to a current record in state
"ended" changes its state to "paused" — the step function allows a pause
transition from a source state other than Active that does not leave the
state unchanged, contrary to the claim. -/
theorem c8_counterexample :
    endedSessionDoc.status = "ended" ∧
    (pauseSession (some endedSessionDoc) "t1").1.map SessionDoc.status =
      some "paused" ∧
    (pauseSession (some endedSessionDoc) "t1").1.map SessionDoc.status ≠
      some endedSessionDoc.status := by
  refine ⟨rfl, rfl, ?_⟩
  decide

/-- C8 amended: pauseSession and resumeSession update the status of
whatever current record exists unconditionally (to "paused" and "active"
respectively, recording pausedAt / resumedAt), with no check of the
source state; with no current record they fail and write nothing.  Every
status the session commands themselves store in a current record is
"active" or "paused", so among command-written records the only
state-changing pause starts from "active" and the only state-changing
resume starts from "paused". -/
theorem c8_pause_resume (s : SessionDoc) (now : String) (meta : StartMeta)
    (pixels : List PixelDoc) :
    pauseSession (some s) now =
      (some { s with status := "paused", pausedAt := some now }, true) ∧
    resumeSession (some s) now =
      (some { s with status := "active", resumedAt := some now }, true) ∧
    pauseSession none now = (none, false) ∧
    resumeSession none now = (none, false) ∧
    (startSession meta now).status = "active" ∧
    (resetCanvas pixels (some s) now).2.1.map SessionDoc.status = some "active" ∧
    ((pauseSession (some s) now).1.map SessionDoc.status = some "paused") ∧
    ((resumeSession (some s) now).1.map SessionDoc.status = some "active") := by
  refine ⟨rfl, rfl, rfl, rfl, rfl, ?_, rfl, rfl⟩
  simp [resetCanvas, Option.map]

/-- C9: endSession with an existing current record archives it under the
timestamped key with every field copied verbatim except the status forced
to "ended" and the new endedAt, touches no other archive key, deletes the
current record, and succeeds; with no current record it changes nothing
and still succeeds. -/
theorem c9_end_session (store : SessionStore) (nowKey : Nat) (nowStr : String) :
    (∀ s, store.current = some s →
      (endSession store nowKey nowStr).2 = true ∧
      (endSession store nowKey nowStr).1.current = none ∧
      (endSession store nowKey nowStr).1.archive nowKey =
        some ⟨{ s with status := "ended" }, nowStr⟩ ∧
      (∀ k, k ≠ nowKey →
        (endSession store nowKey nowStr).1.archive k = store.archive k) ∧
      ({ s with status := "ended" } : SessionDoc).canvasWidth = s.canvasWidth ∧
      ({ s with status := "ended" } : SessionDoc).canvasHeight = s.canvasHeight ∧
      ({ s with status := "ended" } : SessionDoc).startedAt = s.startedAt ∧
      ({ s with status := "ended" } : SessionDoc).createdBy = s.createdBy ∧
      ({ s with status := "ended" } : SessionDoc).createdByUsername =
        s.createdByUsername ∧
      ({ s with status := "ended" } : SessionDoc).pausedAt = s.pausedAt ∧
      ({ s with status := "ended" } : SessionDoc).resumedAt = s.resumedAt ∧
      ({ s with status := "ended" } : SessionDoc).resetAt = s.resetAt ∧
      ({ s with status := "ended" } : SessionDoc).pixelsCleared = s.pixelsCleared ∧
      ({ s with status := "ended" } : SessionDoc).status = "ended") ∧
    (store.current = none → endSession store nowKey nowStr = (store, true)) := by
  constructor
  · intro s hs
    refine ⟨?_, ?_, ?_, ?_, rfl, rfl, rfl, rfl, rfl, rfl, rfl, rfl, rfl, rfl⟩
    · simp [endSession, hs]
    · simp [endSession, hs]
    · simp [endSession, hs]
    · intro k hk
      simp [endSession, hs, hk]
  · intro h
    simp [endSession, h]

/-- C9 witness: ending a session with an active current record archives it
at key 42 with status "ended" and clears the current record. -/
theorem c9_end_session_witness :
    (endSession ⟨some activeSession100, fun _ => none⟩ 42 "t9").1.current = none ∧
    (endSession ⟨some activeSession100, fun _ => none⟩ 42 "t9").1.archive 42 =
      some ⟨{ activeSession100 with status := "ended" }, "t9"⟩ := by
  have h := (c9_end_session ⟨some activeSession100, fun _ => none⟩ 42 "t9").1
    activeSession100 rfl
  exact ⟨h.2.1, h.2.2.1⟩

/-- C10 counterexample: a start command supplying canvasWidth -5 stores -5
unchanged, so the created session does not have positive dimensions. -/
theorem c10_counterexample :
    (startSession ⟨some (-5), some 100, "U1", "Alice"⟩ "t0").canvasWidth = -5 ∧
    ¬ 0 < (startSession ⟨some (-5), some 100, "U1", "Alice"⟩ "t0").canvasWidth := by
  refine ⟨rfl, ?_⟩
  decide

/-- C10 amended: startSession stores 100 for a dimension exactly when the
supplied value is absent or 0 (the falsy numeric inputs), any other
supplied value — including a negative one — is stored unchanged, and the
stored dimensions are never 0; a nonnegative or falsy input therefore
yields a positive stored dimension, but positivity is not guaranteed in
general.  The created record is always "active". -/
theorem c10_start_dimensions (meta : StartMeta) (now : String) :
    ((meta.canvasWidth = none ∨ meta.canvasWidth = some 0) →
      (startSession meta now).canvasWidth = 100) ∧
    (∀ v, meta.canvasWidth = some v → v ≠ 0 →
      (startSession meta now).canvasWidth = v) ∧
    (startSession meta now).canvasWidth ≠ 0 ∧
    ((meta.canvasHeight = none ∨ meta.canvasHeight = some 0) →
      (startSession meta now).canvasHeight = 100) ∧
    (∀ v, meta.canvasHeight = some v → v ≠ 0 →
      (startSession meta now).canvasHeight = v) ∧
    (startSession meta now).canvasHeight ≠ 0 ∧
    (∀ v, meta.canvasWidth = some v → 0 ≤ v →
      0 < (startSession meta now).canvasWidth) ∧
    (startSession meta now).status = "active" := by
  refine ⟨?_, ?_, ?_, ?_, ?_, ?_, ?_, rfl⟩
  · rintro (h | h) <;> simp [startSession, jsNumOr, h]
  · intro v hv hv0
    simp [startSession, jsNumOr, hv, hv0]
  · simp only [startSession, jsNumOr]
    cases meta.canvasWidth with
    | none => decide
    | some n =>
        by_cases h : n = 0
        · simp [h]
        · simp [h]
  · rintro (h | h) <;> simp [startSession, jsNumOr, h]
  · intro v hv hv0
    simp [startSession, jsNumOr, hv, hv0]
  · simp only [startSession, jsNumOr]
    cases meta.canvasHeight with
    | none => decide
    | some n =>
        by_cases h : n = 0
        · simp [h]
        · simp [h]
  · intro v hv hnn
    simp only [startSession, jsNumOr, hv]
    by_cases h : v = 0
    · simp [h]
    · simp only [if_neg h]
      omega

/-- C10 amended witness: absent width and zero height both fall back to
100. -/
theorem c10_start_dimensions_witness :
    (startSession ⟨none, some 0, "U1", "Alice"⟩ "t0").canvasWidth = 100 ∧
    (startSession ⟨none, some 0, "U1", "Alice"⟩ "t0").canvasHeight = 100 ∧
    0 < (startSession ⟨some 250, none, "U1", "Alice"⟩ "t0").canvasWidth := by
  refine ⟨(c10_start_dimensions ⟨none, some 0, "U1", "Alice"⟩ "t0").1 (Or.inl rfl),
    (c10_start_dimensions ⟨none, some 0, "U1", "Alice"⟩ "t0").2.2.2.1 (Or.inr rfl),
    (c10_start_dimensions ⟨some 250, none, "U1", "Alice"⟩ "t0").2.2.2.2.2.2.1
      250 rfl (by decide)⟩

/-- C1 counterexample: one live pixel at (1500, 500) outside a 1000 by 1000
canvas.  By the claim tile-index formula it falls in tile (0, 0), yet the
snapshot run (all uploads succeeding) produces a manifest with an empty
tiles list: the grouping drops pixels outside the canvas bounds, so a
tile can contain a live pixel and still be absent from the manifest. -/
theorem c1_counterexample :
    (snapshotRun [⟨1500, 500, "FF0000"⟩] 1000 1000 0 (fun _ => true) true).pixelCount = 1 ∧
    ((1500 : Int) / (tileSize : Int), (500 : Int) / (tileSize : Int)) =
      ((0 : Int), (0 : Int)) ∧
    manifestTileIndices
      (snapshotRun [⟨1500, 500, "FF0000"⟩] 1000 1000 0 (fun _ => true) true) = [] := by
  refine ⟨rfl, by decide, by decide⟩

/-- C1 amended: a pixel is grouped only under the tile index
(floor(x / T), floor(y / T)); with all uploads succeeding, a tile index is
present in the manifest tiles list iff at least one live pixel inside the
canvas bounds falls in that tile — pixels outside the bounds are excluded
from tiling — and every materialized tile holds at least one pixel, so
empty tiles are never rendered or uploaded. -/
theorem c1_tile_grouping (pixels : List SPixel) (w h : Int) (ts : Nat) :
    (∀ p, inCanvas w h p = true →
      tileKeyOf p = (p.x / (tileSize : Int), p.y / (tileSize : Int))) ∧
    (∀ k p, p ∈ tilePixels pixels w h k →
      tileKeyOf p = k ∧ inCanvas w h p = true ∧ p ∈ pixels) ∧
    (∀ k, k ∈ manifestTileIndices (snapshotRun pixels w h ts (fun _ => true) true) ↔
      ∃ p, p ∈ pixels ∧ inCanvas w h p = true ∧ tileKeyOf p = k) ∧
    (∀ k, k ∈ tileKeys pixels w h → tilePixels pixels w h k ≠ []) := by
  refine ⟨?_, ?_, ?_, ?_⟩
  · intro p hp
    simp only [inCanvas, decide_eq_true_eq] at hp
    simp only [tileKeyOf]
    rw [int_tdiv_eq_ediv_of_nonneg p.x tileSize hp.1,
        int_tdiv_eq_ediv_of_nonneg p.y tileSize hp.2.2.1]
  · intro k p hp
    simp only [tilePixels, List.mem_filter, decide_eq_true_eq] at hp
    exact ⟨hp.2, hp.1.2, hp.1.1⟩
  · intro k
    simp only [manifestTileIndices, snapshotRun, tileKeys, List.filter_true,
      List.mem_map, List.mem_dedup, List.mem_filter]
    constructor
    · rintro ⟨t, ⟨j, ⟨p, ⟨hp, hpc⟩, hpk⟩, ht⟩, hk⟩
      subst ht
      exact ⟨p, hp, hpc, by simpa [hpk] using hk⟩
    · rintro ⟨p, hp, hpc, hpk⟩
      exact ⟨⟨k.1, k.2, tileUrl ts k⟩, ⟨k, ⟨p, ⟨hp, hpc⟩, hpk⟩, rfl⟩, rfl⟩
  · intro k hk
    simp only [tileKeys, List.mem_dedup, List.mem_map, List.mem_filter] at hk
    obtain ⟨p, ⟨hp, hpc⟩, hpk⟩ := hk
    have hmem : p ∈ tilePixels pixels w h k := by
      simp only [tilePixels, List.mem_filter, decide_eq_true_eq]
      exact ⟨⟨hp, hpc⟩, hpk⟩
    exact List.ne_nil_of_mem hmem

/-- C1 amended witness: a pixel at (0, 0) on a 100 by 100 canvas: its tile
key is the floor formula value (0, 0) and that tile is in the manifest. -/
theorem c1_tile_grouping_witness :
    tileKeyOf ⟨0, 0, "FF0000"⟩ =
      ((0 : Int) / (tileSize : Int), (0 : Int) / (tileSize : Int)) ∧
    ((0, 0) : Int × Int) ∈ manifestTileIndices
      (snapshotRun [⟨0, 0, "FF0000"⟩] 100 100 0 (fun _ => true) true) := by
  have h := c1_tile_grouping [⟨0, 0, "FF0000"⟩] 100 100 0
  refine ⟨h.1 ⟨0, 0, "FF0000"⟩ (by decide), ?_⟩
  exact (h.2.2.1 (0, 0)).mpr ⟨⟨0, 0, "FF0000"⟩, by decide, by decide, by decide⟩

/-- C2: when the upload of a materialized tile fails, that tile is
silently dropped: the run still completes (the handler acknowledges) and
persists a manifest whose tiles list is exactly the materialized tiles
with successful uploads — the failed tile is absent, the others and the
pixel count are intact. -/
theorem c2_tile_upload_failure (pixels : List SPixel) (w h : Int) (ts : Nat)
    (ok : Int × Int → Bool) (thumbOk : Bool) (k : Int × Int)
    (_hk : k ∈ tileKeys pixels w h) (hfail : ok k = false) :
    (snapshotHandler (some pixels) w h ts ok thumbOk).1 = .ack ∧
    (snapshotHandler (some pixels) w h ts ok thumbOk).2 =
      some (snapshotRun pixels w h ts ok thumbOk) ∧
    k ∉ manifestTileIndices (snapshotRun pixels w h ts ok thumbOk) ∧
    (∀ j, j ∈ manifestTileIndices (snapshotRun pixels w h ts ok thumbOk) ↔
      j ∈ tileKeys pixels w h ∧ ok j = true) ∧
    (snapshotRun pixels w h ts ok thumbOk).pixelCount = pixels.length := by
  have hmem : ∀ j, j ∈ manifestTileIndices (snapshotRun pixels w h ts ok thumbOk) ↔
      j ∈ tileKeys pixels w h ∧ ok j = true := by
    intro j
    simp only [manifestTileIndices, snapshotRun, List.mem_map, List.mem_filter]
    constructor
    · rintro ⟨t, ⟨a, ⟨ha, hok⟩, ht⟩, hj⟩
      subst ht
      simp only at hj
      subst hj
      simpa using ⟨ha, hok⟩
    · rintro ⟨hj, hok⟩
      exact ⟨⟨j.1, j.2, tileUrl ts j⟩, ⟨j, ⟨hj, hok⟩, rfl⟩, rfl⟩
  refine ⟨rfl, rfl, ?_, hmem, rfl⟩
  intro hcon
  have := (hmem k).mp hcon
  rw [hfail] at this
  exact Bool.false_ne_true this.2

/-- C2 witness: two pixels on a 5000 by 5000 canvas materialize tiles
(0, 0) and (1, 0); with the upload of tile (1, 0) failing, the handler
still acknowledges and the manifest lists tile (0, 0) but not (1, 0). -/
theorem c2_tile_upload_failure_witness :
    (snapshotHandler (some [⟨0, 0, "FF0000"⟩, ⟨3000, 0, "00FF00"⟩]) 5000 5000 7
      (fun j => decide (j ≠ ((1 : Int), (0 : Int)))) true).1 = .ack ∧
    ((1, 0) : Int × Int) ∉ manifestTileIndices
      (snapshotRun [⟨0, 0, "FF0000"⟩, ⟨3000, 0, "00FF00"⟩] 5000 5000 7
        (fun j => decide (j ≠ ((1 : Int), (0 : Int)))) true) ∧
    ((0, 0) : Int × Int) ∈ manifestTileIndices
      (snapshotRun [⟨0, 0, "FF0000"⟩, ⟨3000, 0, "00FF00"⟩] 5000 5000 7
        (fun j => decide (j ≠ ((1 : Int), (0 : Int)))) true) := by
  have h := c2_tile_upload_failure [⟨0, 0, "FF0000"⟩, ⟨3000, 0, "00FF00"⟩]
    5000 5000 7 (fun j => decide (j ≠ ((1 : Int), (0 : Int)))) true (1, 0)
    (by decide) (by decide)
  refine ⟨h.1, h.2.2.1, ?_⟩
  exact (h.2.2.2.1 (0, 0)).mpr ⟨by decide, by decide⟩

/-- C4: handleCloudEvent validates in this exact short-circuiting order —
color regex, then session existence and Active status, then canvas bounds
(when both dimensions are positive), then the coordinate magnitude cap,
then the rate limiter — each failure producing its rejection with no
pixel or user-stat write, and only after all checks pass is the pixel
committed. -/
theorem c4_validation_order (st : WorkerState) (ev : PixelEvent) (now : Nat)
    (nowStr : String) (txFails : Bool) :
    (hexColorOk ev.color = false →
      processPixelEvent st ev now nowStr txFails = (st, .invalidColor)) ∧
    (∀ e, hexColorOk ev.color = true →
      validateBounds st.session ev.x ev.y = some e →
      processPixelEvent st ev now nowStr txFails = (st, .rejectedBounds e)) ∧
    (st.session = none →
      validateBounds st.session ev.x ev.y = some .noActiveSession) ∧
    (∀ s, st.session = some s → s.status ≠ "active" →
      validateBounds st.session ev.x ev.y = some (.sessionNotActive s.status)) ∧
    (∀ s, st.session = some s → s.status = "active" →
      0 < s.canvasWidth → 0 < s.canvasHeight →
      (ev.x < 0 ∨ s.canvasWidth ≤ ev.x ∨ ev.y < 0 ∨ s.canvasHeight ≤ ev.y) →
      validateBounds st.session ev.x ev.y =
        some (.outOfBounds s.canvasWidth s.canvasHeight)) ∧
    (∀ s, st.session = some s → s.status = "active" →
      ¬ (0 < s.canvasWidth ∧ 0 < s.canvasHeight ∧
          (ev.x < 0 ∨ s.canvasWidth ≤ ev.x ∨ ev.y < 0 ∨ s.canvasHeight ≤ ev.y)) →
      (maxCoordinate < ev.x.natAbs ∨ maxCoordinate < ev.y.natAbs) →
      validateBounds st.session ev.x ev.y = some .coordinateTooLarge) ∧
    (∀ s, st.session = some s → s.status = "active" →
      ¬ (0 < s.canvasWidth ∧ 0 < s.canvasHeight ∧
          (ev.x < 0 ∨ s.canvasWidth ≤ ev.x ∨ ev.y < 0 ∨ s.canvasHeight ≤ ev.y)) →
      ev.x.natAbs ≤ maxCoordinate → ev.y.natAbs ≤ maxCoordinate →
      validateBounds st.session ev.x ev.y = none) ∧
    (hexColorOk ev.color = true →
      validateBounds st.session ev.x ev.y = none →
      (checkRateLimit st.rateLimits ev.userId now).1.1 = false →
      processPixelEvent st ev now nowStr txFails =
        ({ st with rateLimits := (checkRateLimit st.rateLimits ev.userId now).2 },
         .rateLimited (checkRateLimit st.rateLimits ev.userId now).1.2 20)) ∧
    (hexColorOk ev.color = true →
      validateBounds st.session ev.x ev.y = none →
      (checkRateLimit st.rateLimits ev.userId now).1.1 = true →
      txFails = false →
      ((processPixelEvent st ev now nowStr txFails).2 = .placed ∧
       (processPixelEvent st ev now nowStr txFails).1.pixels (ev.x, ev.y) =
         some ⟨ev.x, ev.y, ev.color, ev.userId, ev.username,
           (if ev.source = "" then "web" else ev.source), nowStr⟩)) := by
  have hcx := normalizeEvent_x ev
  have hcy := normalizeEvent_y ev
  have hcc := normalizeEvent_color ev
  have hcu := normalizeEvent_userId ev
  refine ⟨?_, ?_, ?_, ?_, ?_, ?_, ?_, ?_, ?_⟩
  · intro h
    simp [processPixelEvent, hcc, h]
  · intro e hcol hvb
    simp [processPixelEvent, hcc, hcx, hcy, hcol, hvb]
  · intro h
    simp [validateBounds, h]
  · intro s hs hstat
    simp [validateBounds, hs, hstat]
  · intro s hs hstat hw hh hout
    rw [hs]
    show validateBounds (some s) ev.x ev.y = _
    simp only [validateBounds]
    rw [if_neg (by simp [hstat]), if_pos ⟨hw, hh, hout⟩]
  · intro s hs hstat hnot hbig
    rw [hs]
    show validateBounds (some s) ev.x ev.y = _
    simp only [validateBounds]
    rw [if_neg (by simp [hstat]), if_neg hnot, if_pos hbig]
  · intro s hs hstat hnot hxa hya
    rw [hs]
    show validateBounds (some s) ev.x ev.y = _
    simp only [validateBounds]
    rw [if_neg (by simp [hstat]), if_neg hnot, if_neg (by omega)]
  · intro hcol hvb hdeny
    have hrl : checkRateLimit st.rateLimits (normalizeEvent ev).userId now =
        checkRateLimit st.rateLimits ev.userId now := by rw [hcu]
    simp [processPixelEvent, hcc, hcx, hcy, hcol, hvb, hrl, hdeny, rateLimitMax]
  · intro hcol hvb hallow htx
    subst htx
    have hrl : checkRateLimit st.rateLimits (normalizeEvent ev).userId now =
        checkRateLimit st.rateLimits ev.userId now := by rw [hcu]
    simp [processPixelEvent, updatePixel, updatePixelWrites, hcc, hcx, hcy, hcu,
      normalizeEvent_username, normalizeEvent_source, hcol, hvb, hrl, hallow]

/-- C4 witness: an invalid color on the sample state yields InvalidColor
with no state change, and a valid placement on the sample state is
committed with the full payload at (5, 5). -/
theorem c4_validation_order_witness :
    processPixelEvent sampleState ⟨5, 5, "ZZZZZZ", "U1", "Alice", "web"⟩ 0 "t" false =
      (sampleState, .invalidColor) ∧
    (processPixelEvent sampleState sampleEvent 0 "t" false).2 = .placed := by
  constructor
  · exact (c4_validation_order sampleState ⟨5, 5, "ZZZZZZ", "U1", "Alice", "web"⟩
      0 "t" false).1 (by decide)
  · exact ((c4_validation_order sampleState sampleEvent 0 "t" false).2.2.2.2.2.2.2.2
      (by decide) (by decide) (by decide) rfl).1

/-- C7 counterexample: a valid placement on the sample state whose
pixel/user transaction fails.  The handler still returns nil — the event
is acknowledged as handled, not surfaced for redelivery — and no pixel is
written, contradicting the claimed retryable surfacing. -/
theorem c7_counterexample :
    (handleCloudEvent (some sampleEvent) sampleState 0 "t" true).1 = .ack ∧
    (handleCloudEvent (some sampleEvent) sampleState 0 "t" true).1 ≠ .retryEvent ∧
    (handleCloudEvent (some sampleEvent) sampleState 0 "t" true).2.2 =
      some .storeFailed ∧
    (handleCloudEvent (some sampleEvent) sampleState 0 "t" true).2.1.pixels (5, 5) =
      none := by
  refine ⟨rfl, by decide, ?_, ?_⟩ <;> rfl

/-- C7 amended: every decoded PlacePixel event is acknowledged (nil
return), including one whose pixel/user transaction fails — in that case
the worker replies a failure message, writes no pixel or user stat, and
the event is not redelivered; only an undecodable event payload is
surfaced to the delivery layer as retryable.  Terminal validation and
rate-limit rejections are likewise acknowledged without retry. -/
theorem c7_store_failure_acked (st : WorkerState) (ev : PixelEvent) (now : Nat)
    (nowStr : String) :
    (∀ txFails, (handleCloudEvent (some ev) st now nowStr txFails).1 = .ack) ∧
    (∀ txFails, (handleCloudEvent none st now nowStr txFails).1 = .retryEvent) ∧
    (handleCloudEvent (some ev) st now nowStr true).2.1.pixels = st.pixels ∧
    (handleCloudEvent (some ev) st now nowStr true).2.1.users = st.users := by
  refine ⟨fun txFails => rfl, fun txFails => rfl, ?_⟩
  simp only [handleCloudEvent, processPixelEvent]
  cases hcol : hexColorOk (normalizeEvent ev).color
  · simp [hcol]
  · cases hvb : validateBounds st.session (normalizeEvent ev).x (normalizeEvent ev).y
    · cases hrl : (checkRateLimit st.rateLimits (normalizeEvent ev).userId now).1.1
      · simp [hcol, hvb, hrl]
      · simp [hcol, hvb, hrl, updatePixel]
    · simp [hcol, hvb]
